import Mathlib

/-!
Shallow embedding of `warp/fem/space/topology.py`: the node-connectivity
layer of a finite-element function-space abstraction.

Modelling conventions:
* Python `int` values (element indices, local node slots, global node ids)
  are modelled as `Int`, since the code meaningfully produces negative
  values (the `-1` sentinel of `inner_cell_index`, and the
  `node_index_in_elt - NODES_PER_ELEMENT` of `outer_cell_index`).
* Counts (`cell_count`, `NODES_PER_ELEMENT`, `node_count`) are `Nat`.
* The geometry is an external collaborator; it is modelled as a record of
  the data the topology layer reads.  Its adjacency queries
  `side_inner_cell_index` / `side_outer_cell_index` are tabulated as lists
  (any concrete geometry has finitely many sides).  Python compares
  geometry objects by object identity; identical objects agree on every
  attribute, so identity is modelled as structural equality of the record
  together with an `oid` field that is unique per constructed object.
* Device argument structures (`CellArg`, `SideArg`, `TopologyArg`) carry
  no information relevant to this layer beyond the geometry state they
  alias, so they are folded into the `Geometry` record.
* A Python `==` between topologies can raise `AttributeError`
  (`TraceSpaceTopology.__eq__` reads `other._topo`); results of such
  calls are modelled with `PyResult`.
-/

namespace WarpFem

/-- External geometry collaborator (contract of §6 of the design):
cell/side counts and the side-to-cell adjacency queries, tabulated. -/
structure Geometry where
  oid : Nat
  dimension : Int
  cell_count : Nat
  side_count : Nat
  side_inner_cells : List Int
  side_outer_cells : List Int
deriving DecidableEq

/-- `geometry.side_inner_cell_index(side_arg, side_index)`. -/
def Geometry.side_inner_cell_index (g : Geometry) (side : Int) : Int :=
  g.side_inner_cells.getD side.toNat 0

/-- `geometry.side_outer_cell_index(side_arg, side_index)`. -/
def Geometry.side_outer_cell_index (g : Geometry) (side : Int) : Int :=
  g.side_outer_cells.getD side.toNat 0

/-- Python `geometry == geometry`: object identity (default `object.__eq__`);
identical objects agree on all fields, and each constructed object carries a
distinct `oid`. -/
def geometryEq (a b : Geometry) : Bool :=
  decide (a = b)

/-- Warp's `wp.select(cond, value_if_false, value_if_true)`: returns the
THIRD argument when the condition is true. -/
def wpSelect (cond : Bool) (onFalse onTrue : Int) : Int :=
  if cond then onTrue else onFalse

/-- A concrete (non-trace) `SpaceTopology` subclass instance: its geometry,
its class name (for the `name` property), its `NODES_PER_ELEMENT`, and its
implemented `element_node_index` / `node_count`. -/
structure BaseTopology where
  geometry : Geometry
  className : String
  NODES_PER_ELEMENT : Nat
  element_node_index : Int → Int → Int
  node_count : Nat

/-- A topology object is either a concrete non-trace topology or a
`TraceSpaceTopology` built over a parent topology (`trace()` returns
`TraceSpaceTopology(self)`). -/
inductive Topology where
  | base : BaseTopology → Topology
  | trace : Topology → Topology

/-- `self.geometry` (a trace stores its parent's geometry:
`super().__init__(topo.geometry, ...)`). -/
def Topology.geometry : Topology → Geometry
  | .base b => b.geometry
  | .trace p => p.geometry

/-- `self.NODES_PER_ELEMENT` (`TraceSpaceTopology.__init__` passes
`2 * topo.NODES_PER_ELEMENT`). -/
def Topology.NODES_PER_ELEMENT : Topology → Nat
  | .base b => b.NODES_PER_ELEMENT
  | .trace p => 2 * p.NODES_PER_ELEMENT

/-- `self.dimension`: `geometry.dimension` for a base topology,
overwritten to `topo.dimension - 1` in `TraceSpaceTopology.__init__`. -/
def Topology.dimension : Topology → Int
  | .base b => b.geometry.dimension
  | .trace p => p.dimension - 1

/-- The `name` property: the f-string
`f"{self.__class__.__name__}_{self.NODES_PER_ELEMENT}"` for a base
topology, and `f"{self._topo.name}_Trace"` for a trace. -/
def Topology.name : Topology → String
  | .base b => b.className ++ "_" ++ Nat.repr b.NODES_PER_ELEMENT
  | .trace p => p.name ++ "_Trace"

/-- `node_count()`: implemented by the concrete variant for a base
topology; `TraceSpaceTopology.node_count` returns
`self._topo.node_count()`. -/
def Topology.node_count : Topology → Nat
  | .base b => b.node_count
  | .trace p => p.node_count

/-- `full_space_topology()`: `self` for base topologies, the parent for a
trace. -/
def Topology.full_space_topology : Topology → Topology
  | .base b => .base b
  | .trace p => p

namespace TraceSpaceTopology

/-- `TraceSpaceTopology._make_inner_cell_index` over parent `p`:
`index_in_inner_cell = wp.select(node_index_in_elt < NODES_PER_ELEMENT, -1,
node_index_in_elt)` where `NODES_PER_ELEMENT = self._topo.NODES_PER_ELEMENT`,
paired with `side_inner_cell_index`. -/
def inner_cell_index (p : Topology) (element_index node_index_in_elt : Int) :
    Int × Int :=
  (p.geometry.side_inner_cell_index element_index,
   wpSelect (decide (node_index_in_elt < (p.NODES_PER_ELEMENT : Int))) (-1)
     node_index_in_elt)

/-- `TraceSpaceTopology._make_outer_cell_index` over parent `p`:
`side_outer_cell_index` paired with
`node_index_in_elt - NODES_PER_ELEMENT` (the parent's count),
unconditionally. -/
def outer_cell_index (p : Topology) (element_index node_index_in_elt : Int) :
    Int × Int :=
  (p.geometry.side_outer_cell_index element_index,
   node_index_in_elt - (p.NODES_PER_ELEMENT : Int))

/-- `TraceSpaceTopology._make_neighbor_cell_index` over parent `p`: inner
branch when `node_index_in_elt < NODES_PER_ELEMENT`, outer branch with
`node_index_in_elt - NODES_PER_ELEMENT` otherwise. -/
def neighbor_cell_index (p : Topology) (element_index node_index_in_elt : Int) :
    Int × Int :=
  if node_index_in_elt < (p.NODES_PER_ELEMENT : Int) then
    (p.geometry.side_inner_cell_index element_index, node_index_in_elt)
  else
    (p.geometry.side_outer_cell_index element_index,
     node_index_in_elt - (p.NODES_PER_ELEMENT : Int))

end TraceSpaceTopology

/-- `element_node_index`: the concrete implementation for a base topology;
for a trace, `_make_element_node_index`: resolve
`(cell_index, index_in_cell) = neighbor_cell_index(...)`, convert the side
argument to a cell argument, and delegate to
`self._topo.element_node_index`. -/
def Topology.element_node_index : Topology → Int → Int → Int
  | .base b => b.element_node_index
  | .trace p => fun element_index node_index_in_elt =>
      let ci := TraceSpaceTopology.neighbor_cell_index p element_index
        node_index_in_elt
      p.element_node_index ci.1 ci.2

/-- `SpaceTopology.element_node_indices`: the bulk node table.  The kernel
is launched over `dim = shape[0] = geometry.cell_count()` elements, and for
each element loops `n in range(NODES_PER_ELEMENT)` writing
`element_node_index(geo_cell_arg, topo_arg, element_index, n)`. -/
def Topology.element_node_indices (t : Topology) : List (List Int) :=
  (List.range t.geometry.cell_count).map fun element_index =>
    (List.range t.NODES_PER_ELEMENT).map fun n =>
      t.element_node_index (Int.ofNat element_index) (Int.ofNat n)

/-- A concrete topology class decorated with
`DiscontinuousSpaceTopologyMixin`: `element_node_index` is the closed form
`NODES_PER_ELEMENT * element_index + node_index_in_elt` and `node_count` is
`geometry.cell_count() * NODES_PER_ELEMENT`. -/
def DiscontinuousSpaceTopology (geo : Geometry) (className : String)
    (npe : Nat) : BaseTopology :=
  { geometry := geo
    className := className
    NODES_PER_ELEMENT := npe
    element_node_index := fun element_index node_index_in_elt =>
      (npe : Int) * element_index + node_index_in_elt
    node_count := geo.cell_count * npe }

/-- Result of a Python call that can raise `AttributeError`. -/
inductive PyResult (α : Type) where
  | ok : α → PyResult α
  | attrError : PyResult α
deriving DecidableEq

/-- Python `a == b` on topologies.  `TraceSpaceTopology.__eq__` runs when
the left operand is a trace (and, both classes being traces, also covers
the reflected case): it evaluates `self._topo == other._topo`, which reads
`other._topo` — an `AttributeError` when `other` is not a trace.  Otherwise
`SpaceTopology.__eq__` runs:
`self.geometry == other.geometry and self.name == other.name`. -/
def topoEq : Topology → Topology → PyResult Bool
  | .trace p, .trace q => topoEq p q
  | .trace _, .base _ => .attrError
  | a, b => .ok (geometryEq a.geometry b.geometry && (a.name == b.name))

/-- `SpaceTopology.is_derived_from`: equal dimensions → `self == other`;
`self.dimension + 1 == other.dimension` → `self.full_space_topology() ==
other`; otherwise `False`. -/
def Topology.is_derived_from (a b : Topology) : PyResult Bool :=
  if a.dimension = b.dimension then topoEq a b
  else if a.dimension + 1 = b.dimension then topoEq a.full_space_topology b
  else .ok false

/-- Both operands are non-trace, or both are traces whose parents again
satisfy this, recursively: the shape condition under which Python `==`
dispatch never reads a missing `_topo` attribute. -/
def sameKind : Topology → Topology → Bool
  | .base _, .base _ => true
  | .trace p, .trace q => sameKind p q
  | _, _ => false

/-- Concrete geometry for witnesses: 4 cells, one side whose inner cell is
1 and outer cell is 2 (the end-to-end scenario of the design document). -/
def gEx : Geometry :=
  { oid := 0
    dimension := 2
    cell_count := 4
    side_count := 1
    side_inner_cells := [1]
    side_outer_cells := [2] }

/-- A second, distinct geometry (different object, different cell count). -/
def gEx2 : Geometry :=
  { oid := 1
    dimension := 2
    cell_count := 5
    side_count := 1
    side_inner_cells := [0]
    side_outer_cells := [3] }

/-- Discontinuous topology over `gEx` with 2 nodes per element. -/
def discEx : Topology :=
  .base (DiscontinuousSpaceTopology gEx ("DiscTopo") 2)

/-- Discontinuous topology over the second geometry. -/
def discEx2 : Topology :=
  .base (DiscontinuousSpaceTopology gEx2 ("DiscTopo") 2)

/-- Trace topology over `discEx`. -/
def traceEx : Topology :=
  .trace discEx

/-! ### Helper lemmas about names -/

/-- `Nat.toDigitsCore` only prepends characters, so with a nonempty
accumulator the last character of its output is the accumulator's last. -/
theorem toDigitsCore_getLast? (b : Nat) (fuel : Nat) :
    ∀ (n : Nat) (c : Char) (ds : List Char),
      (Nat.toDigitsCore b fuel n (c :: ds)).getLast? = (c :: ds).getLast? := by
  induction fuel with
  | zero => intro n c ds; rfl
  | succ fuel ih =>
    intro n c ds
    simp only [Nat.toDigitsCore]
    split
    · exact List.getLast?_cons_cons
    · rw [ih]
      exact List.getLast?_cons_cons

/-- The decimal rendering of a natural number ends with the digit character
of its last decimal digit. -/
theorem toDigits_getLast? (n : Nat) :
    (Nat.toDigits 10 n).getLast? = some (Nat.digitChar (n % 10)) := by
  show (Nat.toDigitsCore 10 (n + 1) n []).getLast? = _
  simp only [Nat.toDigitsCore]
  split
  · rfl
  · rw [toDigitsCore_getLast?]
    rfl

/-- Decimal digit characters are never the letter of the `"_Trace"`
suffix. -/
theorem digitChar_mod_ten_ne (n : Nat) : Nat.digitChar (n % 10) ≠ 'e' := by
  have h : n % 10 < 10 := Nat.mod_lt n (by omega)
  have hall : ∀ m, m < 10 → Nat.digitChar m ≠ 'e' := by decide
  exact hall _ h

/-- A base topology's name (ending in the decimal rendering of
`NODES_PER_ELEMENT`) never coincides with a trace topology's name (ending
in `"_Trace"`). -/
theorem base_name_ne_trace_name (cls : String) (npe : Nat) (s : String) :
    cls ++ "_" ++ Nat.repr npe ≠ s ++ "_Trace" := by
  intro h
  have hd : (cls ++ "_").data ++ Nat.toDigits 10 npe =
      s.data ++ ('_' :: 'T' :: 'r' :: 'a' :: 'c' :: 'e' :: []) := by
    simpa [String.data_append, Nat.repr, List.asString] using
      congrArg String.data h
  have hlast := congrArg List.getLast? hd
  rw [List.getLast?_append, List.getLast?_append, toDigits_getLast?] at hlast
  simp at hlast
  exact digitChar_mod_ten_ne npe hlast

/-- Appending a fixed suffix to equal strings is injective. -/
theorem string_append_cancel_right {a b t : String} (h : a ++ t = b ++ t) :
    a = b := by
  have hd : a.data ++ t.data = b.data ++ t.data := by
    simpa [String.data_append] using congrArg String.data h
  have hab : a.data = b.data := List.append_cancel_right hd
  cases a
  cases b
  exact congrArg String.mk hab

/-- Boolean form of right-cancellation for string append. -/
theorem string_beq_append_right (a b t : String) :
    (a ++ t == b ++ t) = (a == b) := by
  by_cases hab : a = b
  · subst hab
    simp
  · have h2 : a ++ t ≠ b ++ t := fun hc => hab (string_append_cancel_right hc)
    rw [beq_eq_false_iff_ne.mpr h2, beq_eq_false_iff_ne.mpr hab]

/-! ### Helper lemmas about topology equality -/

/-- Python `==` on topologies is reflexive (and in particular never raises
on a reflexive comparison). -/
theorem topoEq_refl (a : Topology) : topoEq a a = .ok true := by
  induction a with
  | base b => simp [topoEq, geometryEq]
  | trace p ih => simpa [topoEq] using ih

/-- When Python `==` answers `True`, the two topologies have the same
dimension (equal geometries for base topologies; induction for traces; a
base never compares equal to a trace because their names differ). -/
theorem topoEq_ok_true_dimension {a b : Topology}
    (h : topoEq a b = .ok true) : a.dimension = b.dimension := by
  induction a generalizing b with
  | base ab =>
    cases b with
    | base bb =>
      simp only [topoEq, PyResult.ok.injEq, Bool.and_eq_true, beq_iff_eq,
        geometryEq, decide_eq_true_eq, Topology.geometry] at h
      obtain ⟨hg, _⟩ := h
      simp [Topology.dimension, hg]
    | trace q =>
      exfalso
      simp only [topoEq, PyResult.ok.injEq, Bool.and_eq_true, beq_iff_eq,
        Topology.name] at h
      exact base_name_ne_trace_name _ _ _ h.2
  | trace p ih =>
    cases b with
    | base bb => simp [topoEq] at h
    | trace q =>
      have h' : topoEq p q = .ok true := h
      have := ih h'
      simp [Topology.dimension, this]

/-- On same-kind pairs, Python `==` reduces to the base-class comparison:
geometry identity and name equality, with no exception. -/
theorem topoEq_of_sameKind {a b : Topology} (h : sameKind a b = true) :
    topoEq a b = .ok (geometryEq a.geometry b.geometry && (a.name == b.name)) := by
  induction a generalizing b with
  | base ab =>
    cases b with
    | base bb => rfl
    | trace q => simp [sameKind] at h
  | trace p ih =>
    cases b with
    | base bb => simp [sameKind] at h
    | trace q =>
      have h' : sameKind p q = true := h
      have heq : topoEq (Topology.trace p) (Topology.trace q) = topoEq p q := rfl
      rw [heq, ih h']
      simp [Topology.geometry, Topology.name, string_beq_append_right]

/-! ### Claim theorems -/

/-- Claim C1: for a `TraceSpaceTopology` over a parent with
`nodes_per_element = n`, for every side and every slot in `[0, 2n)`,
`element_node_index` equals the parent's `element_node_index` at the
side's inner-adjacent cell and slot when `slot < n`, and at the side's
outer-adjacent cell and `slot - n` when `slot ≥ n`. -/
theorem trace_element_node_index_splits (p : Topology) (side slot : Int)
    (h0 : 0 ≤ slot) (h2 : slot < 2 * (p.NODES_PER_ELEMENT : Int)) :
    (Topology.trace p).element_node_index side slot =
      if slot < (p.NODES_PER_ELEMENT : Int) then
        p.element_node_index (p.geometry.side_inner_cell_index side) slot
      else
        p.element_node_index (p.geometry.side_outer_cell_index side)
          (slot - (p.NODES_PER_ELEMENT : Int)) := by
  show p.element_node_index
      (TraceSpaceTopology.neighbor_cell_index p side slot).1
      (TraceSpaceTopology.neighbor_cell_index p side slot).2 = _
  unfold TraceSpaceTopology.neighbor_cell_index
  split <;> rfl

/-- Witness for C1: on the trace of the concrete discontinuous topology
(`n = 2`, side 0 with inner cell 1 and outer cell 2), slot 2 resolves to
the outer cell's node 0, i.e. global node `2 * 2 + 0 = 4`. -/
theorem trace_element_node_index_splits_witness :
    (Topology.trace discEx).element_node_index 0 2 = 4 :=
  (trace_element_node_index_splits discEx 0 2 (by decide) (by decide)).trans
    (by decide)

/-- Claim C2: a `DiscontinuousSpaceTopologyMixin` topology computes
`element_node_index` as `nodes_per_element * element_index +
node_index_in_elt` and `node_count` as `cell_count * nodes_per_element`;
with 3 nodes per element, element 2 slot 1 gives node 7. -/
theorem disc_element_node_index_closed_form (geo : Geometry) (cls : String)
    (npe : Nat) (e s : Int) :
    (Topology.base (DiscontinuousSpaceTopology geo cls npe)).element_node_index
        e s = (npe : Int) * e + s ∧
    (Topology.base (DiscontinuousSpaceTopology geo cls npe)).node_count
        = geo.cell_count * npe ∧
    (Topology.base (DiscontinuousSpaceTopology geo cls 3)).element_node_index
        2 1 = 7 :=
  ⟨rfl, rfl, rfl⟩

/-- Claim C6: a trace topology's `node_count` is its parent's
`node_count` — the trace introduces no nodes of its own. -/
theorem trace_node_count_eq_parent (t : Topology) :
    (Topology.trace t).node_count = t.node_count :=
  rfl

/-- Claim C8: `inner_cell_index` pairs the side's inner-adjacent cell with
the slot itself when `slot < n`, and with the sentinel `-1` when
`slot ≥ n` (`wp.select` returns its third argument on a true
condition). -/
theorem inner_cell_index_spec (p : Topology) (side slot : Int) :
    TraceSpaceTopology.inner_cell_index p side slot =
      (p.geometry.side_inner_cell_index side,
       if slot < (p.NODES_PER_ELEMENT : Int) then slot else (-1)) := by
  simp [TraceSpaceTopology.inner_cell_index, wpSelect]

/-- Claim C9: `outer_cell_index` unconditionally pairs the side's
outer-adjacent cell with `slot - n`; for `slot < n` (with `slot ≥ 0`) that
local index is negative, and no error is signalled. -/
theorem outer_cell_index_spec (p : Topology) (side slot : Int)
    (h0 : 0 ≤ slot) (h : slot < (p.NODES_PER_ELEMENT : Int)) :
    TraceSpaceTopology.outer_cell_index p side slot =
      (p.geometry.side_outer_cell_index side,
       slot - (p.NODES_PER_ELEMENT : Int)) ∧
    (TraceSpaceTopology.outer_cell_index p side slot).2 < 0 := by
  refine ⟨rfl, ?_⟩
  show slot - (p.NODES_PER_ELEMENT : Int) < 0
  omega

/-- Witness for C9: on the concrete parent (`n = 2`), slot 1 yields the
outer cell paired with the negative local index `1 - 2 = -1`. -/
theorem outer_cell_index_spec_witness :
    TraceSpaceTopology.outer_cell_index discEx 0 1 =
      (discEx.geometry.side_outer_cell_index 0,
       1 - (discEx.NODES_PER_ELEMENT : Int)) ∧
    (TraceSpaceTopology.outer_cell_index discEx 0 1).2 < 0 :=
  outer_cell_index_spec discEx 0 1 (by decide) (by decide)

/-- Claim C10: for every slot in `[0, 2n)`, the local index returned by
`neighbor_cell_index` lies in `[0, n)`, and the trace's
`element_node_index` is exactly the parent's `element_node_index` applied
to `neighbor_cell_index`'s components — so the parent is always invoked
with an in-range local node index. -/
theorem neighbor_cell_index_slot_in_range (p : Topology) (side slot : Int)
    (h0 : 0 ≤ slot) (h2 : slot < 2 * (p.NODES_PER_ELEMENT : Int)) :
    (0 ≤ (TraceSpaceTopology.neighbor_cell_index p side slot).2 ∧
      (TraceSpaceTopology.neighbor_cell_index p side slot).2 <
        (p.NODES_PER_ELEMENT : Int)) ∧
    (Topology.trace p).element_node_index side slot =
      p.element_node_index
        (TraceSpaceTopology.neighbor_cell_index p side slot).1
        (TraceSpaceTopology.neighbor_cell_index p side slot).2 := by
  refine ⟨?_, rfl⟩
  unfold TraceSpaceTopology.neighbor_cell_index
  split
  · constructor <;> simp <;> omega
  · constructor <;> simp <;> omega

/-- Witness for C10: on the concrete trace (`n = 2`), side 0 and slot 3
give a local index in `[0, 2)` and the delegation equation holds. -/
theorem neighbor_cell_index_slot_in_range_witness :
    (0 ≤ (TraceSpaceTopology.neighbor_cell_index discEx 0 3).2 ∧
      (TraceSpaceTopology.neighbor_cell_index discEx 0 3).2 <
        (discEx.NODES_PER_ELEMENT : Int)) ∧
    (Topology.trace discEx).element_node_index 0 3 =
      discEx.element_node_index
        (TraceSpaceTopology.neighbor_cell_index discEx 0 3).1
        (TraceSpaceTopology.neighbor_cell_index discEx 0 3).2 :=
  neighbor_cell_index_slot_in_range discEx 0 3 (by decide) (by decide)

/-- Counterexample to C3 as stated: comparing a trace topology with a
non-trace topology is not total — `TraceSpaceTopology.__eq__` reads
`other._topo`, which a non-trace topology does not have, raising
`AttributeError` instead of returning `False`. -/
theorem topoEq_trace_vs_base_raises : topoEq traceEx discEx = .attrError :=
  rfl

/-- Claim C3 (amended): restricted to same-kind pairs (both non-trace, or
both traces of same-kind parents), `__eq__` is total — it returns a
boolean, and returns `False` (not an error) whenever the geometries differ
or the structural names differ. -/
theorem topoEq_total_on_same_kind (a b : Topology) (h : sameKind a b = true) :
    (∃ r, topoEq a b = .ok r) ∧
    ((geometryEq a.geometry b.geometry = false ∨ a.name ≠ b.name) →
      topoEq a b = .ok false) := by
  refine ⟨⟨_, topoEq_of_sameKind h⟩, ?_⟩
  intro hmis
  rw [topoEq_of_sameKind h]
  rcases hmis with hg | hn
  · simp [hg]
  · rw [beq_eq_false_iff_ne.mpr hn]
    simp

/-- Witness for the amended C3: the two concrete discontinuous topologies
live over different geometry objects, and their comparison returns
`False` without raising. -/
theorem topoEq_total_on_same_kind_witness :
    (∃ r, topoEq discEx discEx2 = .ok r) ∧
    ((geometryEq discEx.geometry discEx2.geometry = false ∨
        discEx.name ≠ discEx2.name) →
      topoEq discEx discEx2 = .ok false) :=
  topoEq_total_on_same_kind discEx discEx2 (by decide)

/-- Claim C4: the bulk node table has shape
`(cell_count, nodes_per_element)` and entry `[e, n]` equals a direct call
to `element_node_index(e, n)`. -/
theorem element_node_indices_table (t : Topology) (e n : Nat)
    (he : e < t.geometry.cell_count) (hn : n < t.NODES_PER_ELEMENT) :
    t.element_node_indices.length = t.geometry.cell_count ∧
    (∀ row ∈ t.element_node_indices, row.length = t.NODES_PER_ELEMENT) ∧
    (t.element_node_indices.getD e []).getD n 0 =
      t.element_node_index (Int.ofNat e) (Int.ofNat n) := by
  refine ⟨?_, ?_, ?_⟩
  · simp [Topology.element_node_indices]
  · intro row hrow
    simp only [Topology.element_node_indices, List.mem_map] at hrow
    obtain ⟨i, _, rfl⟩ := hrow
    simp
  · simp [Topology.element_node_indices, List.getElem?_range he,
      List.getElem?_range hn]

/-- Witness for C4: on the concrete discontinuous topology (4 cells, 2
nodes per element), the table has 4 rows of width 2 and entry `[2, 1]`
matches the direct call. -/
theorem element_node_indices_table_witness :
    discEx.element_node_indices.length = discEx.geometry.cell_count ∧
    (∀ row ∈ discEx.element_node_indices,
      row.length = discEx.NODES_PER_ELEMENT) ∧
    (discEx.element_node_indices.getD 2 []).getD 1 0 =
      discEx.element_node_index (Int.ofNat 2) (Int.ofNat 1) :=
  element_node_indices_table discEx 2 1 (by decide) (by decide)

/-- The closed-form node ids of a discontinuous topology stay inside
`[0, cell_count * nodes_per_element)` for in-range cell and slot. -/
theorem disc_range_bound (npe cc : Nat) (c i : Int)
    (hc0 : 0 ≤ c) (hc : c < (cc : Int)) (hi0 : 0 ≤ i) (hi : i < (npe : Int)) :
    0 ≤ (npe : Int) * c + i ∧
      (npe : Int) * c + i < ((cc * npe : Nat) : Int) := by
  constructor
  · have hm : (0 : Int) ≤ (npe : Int) * c :=
      mul_nonneg (by positivity) hc0
    omega
  · calc (npe : Int) * c + i < (npe : Int) * c + (npe : Int) := by omega
      _ = (npe : Int) * (c + 1) := by ring
      _ ≤ (npe : Int) * (cc : Int) := by
          apply mul_le_mul_of_nonneg_left (by omega) (by positivity)
      _ = ((cc * npe : Nat) : Int) := by push_cast; ring

/-- Claim C5: for a discontinuous topology and for a trace over it — with
the geometry's adjacency queries answering in-range cells — every
`element_node_index` value at an in-range element and slot lies in
`[0, node_count())`. -/
theorem element_node_index_in_node_count_range (geo : Geometry)
    (cls : String) (npe : Nat) (e s side slot : Int)
    (he0 : 0 ≤ e) (he : e < (geo.cell_count : Int))
    (hs0 : 0 ≤ s) (hs : s < (npe : Int))
    (hslot0 : 0 ≤ slot) (hslot : slot < 2 * (npe : Int))
    (hinner0 : 0 ≤ geo.side_inner_cell_index side)
    (hinner : geo.side_inner_cell_index side < (geo.cell_count : Int))
    (houter0 : 0 ≤ geo.side_outer_cell_index side)
    (houter : geo.side_outer_cell_index side < (geo.cell_count : Int)) :
    (0 ≤ (Topology.base (DiscontinuousSpaceTopology geo cls npe)).element_node_index e s ∧
      (Topology.base (DiscontinuousSpaceTopology geo cls npe)).element_node_index e s <
        ((Topology.base (DiscontinuousSpaceTopology geo cls npe)).node_count : Int)) ∧
    (0 ≤ (Topology.trace (Topology.base (DiscontinuousSpaceTopology geo cls npe))).element_node_index side slot ∧
      (Topology.trace (Topology.base (DiscontinuousSpaceTopology geo cls npe))).element_node_index side slot <
        ((Topology.trace (Topology.base (DiscontinuousSpaceTopology geo cls npe))).node_count : Int)) := by
  constructor
  · exact disc_range_bound npe geo.cell_count e s he0 he hs0 hs
  · have heni :
        (Topology.trace (Topology.base (DiscontinuousSpaceTopology geo cls npe))).element_node_index side slot =
          if slot < (npe : Int) then
            (npe : Int) * geo.side_inner_cell_index side + slot
          else
            (npe : Int) * geo.side_outer_cell_index side + (slot - (npe : Int)) := by
      show (DiscontinuousSpaceTopology geo cls npe).element_node_index
          (TraceSpaceTopology.neighbor_cell_index
            (Topology.base (DiscontinuousSpaceTopology geo cls npe)) side slot).1
          (TraceSpaceTopology.neighbor_cell_index
            (Topology.base (DiscontinuousSpaceTopology geo cls npe)) side slot).2 = _
      unfold TraceSpaceTopology.neighbor_cell_index
      have hnpe :
          (Topology.base (DiscontinuousSpaceTopology geo cls npe)).NODES_PER_ELEMENT
            = npe := rfl
      rw [hnpe]
      split <;> rfl
    rw [heni]
    split
    · exact disc_range_bound npe geo.cell_count _ slot hinner0 hinner hslot0
        (by assumption)
    · rename_i hge
      exact disc_range_bound npe geo.cell_count _ (slot - (npe : Int))
        houter0 houter (by omega) (by omega)

/-- Witness for C5: concrete geometry with 4 cells, side 0 adjacent to
cells 1 (inner) and 2 (outer), `nodes_per_element = 2`, element 3, slot 1,
trace slot 3. -/
theorem element_node_index_in_node_count_range_witness :
    (0 ≤ (Topology.base (DiscontinuousSpaceTopology gEx ("DiscTopo") 2)).element_node_index 3 1 ∧
      (Topology.base (DiscontinuousSpaceTopology gEx ("DiscTopo") 2)).element_node_index 3 1 <
        ((Topology.base (DiscontinuousSpaceTopology gEx ("DiscTopo") 2)).node_count : Int)) ∧
    (0 ≤ (Topology.trace (Topology.base (DiscontinuousSpaceTopology gEx ("DiscTopo") 2))).element_node_index 0 3 ∧
      (Topology.trace (Topology.base (DiscontinuousSpaceTopology gEx ("DiscTopo") 2))).element_node_index 0 3 <
        ((Topology.trace (Topology.base (DiscontinuousSpaceTopology gEx ("DiscTopo") 2))).node_count : Int)) :=
  element_node_index_in_node_count_range gEx ("DiscTopo") 2 3 1 0 3
    (by decide) (by decide) (by decide) (by decide) (by decide) (by decide)
    (by decide) (by decide) (by decide) (by decide)

/-- Claim C7: `is_derived_from(self, other)` answers `True` exactly when
`self == other` answers `True`, or `self.dimension + 1 == other.dimension`
and `self.full_space_topology() == other` answers `True`; consequently it
is reflexive, a trace is derived from its parent, and a parent is not
derived from its trace. -/
theorem is_derived_from_characterization (a b : Topology) :
    (a.is_derived_from b = .ok true ↔
      (topoEq a b = .ok true ∨
        (a.dimension + 1 = b.dimension ∧
          topoEq a.full_space_topology b = .ok true))) ∧
    a.is_derived_from a = .ok true ∧
    (Topology.trace a).is_derived_from a = .ok true ∧
    a.is_derived_from (Topology.trace a) = .ok false := by
  refine ⟨?_, ?_, ?_, ?_⟩
  · unfold Topology.is_derived_from
    by_cases hd : a.dimension = b.dimension
    · rw [if_pos hd]
      constructor
      · exact fun h => Or.inl h
      · rintro (h | ⟨hdd, _⟩)
        · exact h
        · exfalso
          omega
    · rw [if_neg hd]
      by_cases hd1 : a.dimension + 1 = b.dimension
      · rw [if_pos hd1]
        constructor
        · exact fun h => Or.inr ⟨hd1, h⟩
        · rintro (h | ⟨_, h⟩)
          · exact absurd (topoEq_ok_true_dimension h) hd
          · exact h
      · rw [if_neg hd1]
        constructor
        · intro h
          simp at h
        · rintro (h | ⟨hdd, _⟩)
          · exact absurd (topoEq_ok_true_dimension h) hd
          · exact absurd hdd hd1
  · unfold Topology.is_derived_from
    rw [if_pos rfl]
    exact topoEq_refl a
  · unfold Topology.is_derived_from
    have hdim : (Topology.trace a).dimension = a.dimension - 1 := rfl
    rw [hdim, if_neg (by omega), if_pos (by omega)]
    exact topoEq_refl a
  · unfold Topology.is_derived_from
    have hdim : (Topology.trace a).dimension = a.dimension - 1 := rfl
    rw [hdim, if_neg (by omega), if_neg (by omega)]

end WarpFem
